import Mathlib

/-!
# Verification of the DP100 WebHID protocol layer

Shallow embedding of `src/assets/js/dp100.js` (the protocol core of the
DP100-WebApp repository): the CRC-16/MODBUS checksum, the frame
encoder (`sendReport`), the inbound frame parser and dispatcher
(`inputReportHandler`), and the settings-write operations
(`setBasicOutput`, `setBasicSettings`).

Byte buffers are `List Nat` with every element below 256 where the
source guarantees it (a `Uint8Array` coerces its elements modulo 256,
which the embedding performs explicitly).  JavaScript `DataView` reads
throw `RangeError` when out of range; the embedding returns `none` in
that case, so `Option` failure models a thrown exception.  Physical
quantities (volts, amps, degrees) are `ℚ`, matching exact decimal
arithmetic on the small fixed-point values involved.
-/

namespace DP100

set_option maxRecDepth 65536

/-! ## Byte-buffer primitives (`DataView` / `Uint8Array` semantics) -/

/-- `DataView.getUint8(i)`: the byte at offset `i`, or `none` when the read
is out of range (JavaScript throws `RangeError`). -/
def getUint8 (data : List Nat) (i : Nat) : Option Nat :=
  data.get? i

/-- `DataView.getUint16(i, true)`: little-endian 16-bit read at offset `i`,
`none` when either byte is out of range. -/
def getUint16le (data : List Nat) (i : Nat) : Option Nat :=
  match data.get? i, data.get? (i + 1) with
  | some lo, some hi => some (lo + 256 * hi)
  | _, _ => none

/-- `ArrayBuffer.slice(a, b)`: elements from offset `a` up to (excluding)
offset `b`, clamped to the buffer (JavaScript `slice` never throws). -/
def bufferSlice (data : List Nat) (a b : Nat) : List Nat :=
  (data.take b).drop a

/-- `DataView.setUint16(_, v, true)`: the two bytes stored for `v`,
little-endian (`ToUint16` reduces `v` modulo 2^16 first; on naturals the
stored bytes are `v % 256` and `v / 256 % 256`). -/
def u16le (v : Nat) : List Nat :=
  [v % 256, v / 256 % 256]

/-! ## `crc16` (CRC-16/MODBUS), from `src/assets/js/dp100.js` lines 10–26 -/

/-- One inner-loop round of `crc16`: test the low bit, shift right, and
XOR with `0xA001` when the low bit was set. -/
def crcRound (crc : Nat) : Nat :=
  let odd := crc &&& 0x0001
  let c := crc >>> 1
  if odd ≠ 0 then c ^^^ 0xA001 else c

/-- The body of `crc16`'s outer loop: XOR the byte in, then run the inner
loop eight times (`for (let j = 0; j < 8; j++)`). -/
def crcByte (crc byte : Nat) : Nat :=
  (List.range 8).foldl (fun c _ => crcRound c) (crc ^^^ byte)

/-- `crc16(buffer)`: fold `crcByte` over the bytes starting from `0xFFFF`. -/
def crc16 (buffer : List Nat) : Nat :=
  buffer.foldl crcByte 0xFFFF

/-! ### Reference CRC-16/MODBUS

An independent statement of the standard algorithm, written with iterated
application rather than the source's counted loop, for comparison with the
embedded `crc16`. -/

/-- Reference single shift-round of CRC-16/MODBUS: on an odd accumulator,
halve and XOR the reflected polynomial `0xA001`; on an even one, halve. -/
def modbusStep (c : Nat) : Nat :=
  if c % 2 = 1 then c / 2 ^^^ 0xA001 else c / 2

/-- Reference per-byte step: XOR the byte into the accumulator and apply
`modbusStep` eight times. -/
def modbusByte (c b : Nat) : Nat :=
  modbusStep^[8] (c ^^^ b)

/-- Reference CRC-16/MODBUS over a byte sequence, initial value `0xFFFF`. -/
def crc16_modbus (buffer : List Nat) : Nat :=
  buffer.foldl modbusByte 0xFFFF

/-! ### `crc16` agrees with the reference -/

/-! ## Constants from `src/assets/js/dp100.js` -/

/-- `deviceAddr`: the DP100's device address. -/
def deviceAddr : Nat := 251

/-- `FUNCTIONS.DEVICE_INFO`. -/
def DEVICE_INFO : Nat := 0x10

/-- `FUNCTIONS.BASIC_INFO`. -/
def BASIC_INFO : Nat := 0x30

/-- `FUNCTIONS.BASIC_SET`. -/
def BASIC_SET : Nat := 0x35

/-- `FUNCTIONS.SYSTEM_INFO`. -/
def SYSTEM_INFO : Nat := 0x40

/-- `MAGIC_BYTES.OUTPUT`. -/
def MAGIC_OUTPUT : Nat := 0x20

/-- `MAGIC_BYTES.SETTING`. -/
def MAGIC_SETTING : Nat := 0x40

/-! ## Frame encoding: `sendReport` (lines 113–128) -/

/-- `sendReport(functionId, content, sequence)`: build
`[deviceAddr, functionId, sequence?, content.length, ...content, 0, 0]`
(the sequence byte is spliced out when `sequence` is `null`; a `null`
`content` defaults to the single placeholder byte `[0]`, while an explicit
empty array stays empty), coerce every element modulo 256 as the
`Uint8Array` constructor does, then overwrite the two trailing zero bytes
with the little-endian CRC-16 of everything before them. -/
def sendReport (functionId : Nat) (content : Option (List Nat))
    (sequence : Option Nat) : List Nat :=
  let content := content.getD [0]
  let header : List Nat :=
    [deviceAddr, functionId] ++ (sequence.map fun s => [s]).getD [] ++
      [content.length] ++ content ++ [0, 0]
  let report := header.map (· % 256)
  let checksum := crc16 (bufferSlice report 0 (report.length - 2))
  report.take (report.length - 2) ++ u16le checksum

/-! ## Session state -/

/-- The decoded `BASIC_INFO` record stored by `receiveBasicInfo`. -/
structure BasicInfo where
  vIn : ℚ
  vOut : ℚ
  iOut : ℚ
  voMax : ℚ
  temp1 : ℚ
  temp2 : ℚ
  dc5V : ℚ
  outMode : Nat
  workSt : Nat
deriving DecidableEq, Repr

/-- The settings record stored by `receiveBasicSettings` and queued by the
write operations: `{ state, vo_set, io_set, ovp_set, ocp_set }`. -/
structure BasicSettings where
  state : Nat
  vo_set : ℚ
  io_set : ℚ
  ovp_set : ℚ
  ocp_set : ℚ
deriving DecidableEq, Repr

/-- The decoded `SYSTEM_INFO` record stored by `receiveSystemInfo`. -/
structure SystemInfo where
  otp : Nat
  opp : ℚ
  backlight : Nat
  volume : Nat
  reverse_protection : Nat
  audio_out : Nat
deriving DecidableEq, Repr

/-- The mutable fields of the `DP100` mixin instance touched by the
protocol layer: `this.info`, `this.settings`, `this.system` (each
`undefined` until first assigned, hence `Option`) and
`this.settingsQueue` (initialised to `[]`). -/
structure DeviceState where
  info : Option BasicInfo := none
  settings : Option BasicSettings := none
  system : Option SystemInfo := none
  settingsQueue : List BasicSettings := []
deriving DecidableEq, Repr

/-- `receiveBasicInfo` (lines 262–265): store the record in `this.info`. -/
def receiveBasicInfo (st : DeviceState) (b : BasicInfo) : DeviceState :=
  { st with info := some b }

/-- `receiveBasicSettings` (lines 276–279): store the record in
`this.settings`; the `ack` field is logged but not stored. -/
def receiveBasicSettings (st : DeviceState) (_ack : Nat)
    (b : BasicSettings) : DeviceState :=
  { st with settings := some b }

/-- `receiveSystemInfo` (lines 290–293): store the record in `this.system`. -/
def receiveSystemInfo (st : DeviceState) (s : SystemInfo) : DeviceState :=
  { st with system := some s }

/-! ## Inbound frame parsing: `inputReportHandler` (lines 172–190) -/

/-- The header fields, payload view and the two checksums read by
`inputReportHandler` before it dispatches on the function type. -/
structure Frame where
  deviceAddr : Nat
  functionType : Nat
  sequence : Nat
  contentView : List Nat
  checksum : Nat
  computedChecksum : Nat
deriving DecidableEq, Repr

/-- The header/checksum phase of `inputReportHandler`: read the four
header bytes (`deviceAddr`, `functionType`, `sequence`, `contentLength`),
slice the payload view, read the trailing little-endian checksum, and
recompute the CRC-16 over header plus payload.  `none` models a thrown
`RangeError` on a truncated buffer. -/
def parseReport (data : List Nat) : Option Frame := do
  let addr ← getUint8 data 0
  let functionType ← getUint8 data 1
  let sequence ← getUint8 data 2
  let contentLength ← getUint8 data 3
  let contentView := bufferSlice data 4 (4 + contentLength)
  let checksum ← getUint16le data (4 + contentLength)
  let computedChecksum := crc16 (bufferSlice data 0 (4 + contentLength))
  some ⟨addr, functionType, sequence, contentView, checksum, computedChecksum⟩

/-- The event produced by one invocation of `inputReportHandler`,
mirroring which branch of the `switch` ran (the `checksumFailed` event
carries the values logged by `console.error`). -/
inductive HandlerEvent where
  | checksumFailed (expected received : Nat)
  | basicInfo
  | basicSet
  | systemInfo
  | deviceInfo
  | unhandled (functionType : Nat)
deriving DecidableEq, Repr

/-- The `switch (header.functionType)` dispatch of `inputReportHandler`
(lines 191–254), run only after the checksum test passed.  Every
`DataView` read on the payload view is a bind, so a payload shorter than
the branch expects yields `none` (a thrown `RangeError`). -/
def dispatchFrame (st : DeviceState) (fr : Frame) :
    Option (DeviceState × HandlerEvent) :=
  if fr.functionType = BASIC_INFO then do
    let vIn ← getUint16le fr.contentView 0
    let vOut ← getUint16le fr.contentView 2
    let iOut ← getUint16le fr.contentView 4
    let voMax ← getUint16le fr.contentView 6
    let temp1 ← getUint16le fr.contentView 8
    let temp2 ← getUint16le fr.contentView 10
    let dc5V ← getUint16le fr.contentView 12
    let outMode ← getUint8 fr.contentView 14
    let workSt ← getUint8 fr.contentView 15
    some (receiveBasicInfo st
      { vIn := (vIn : ℚ) / 1000, vOut := (vOut : ℚ) / 1000,
        iOut := (iOut : ℚ) / 1000, voMax := (voMax : ℚ) / 1000,
        temp1 := (temp1 : ℚ) / 10, temp2 := (temp2 : ℚ) / 10,
        dc5V := (dc5V : ℚ) / 1000, outMode := outMode, workSt := workSt },
      .basicInfo)
  else if fr.functionType = BASIC_SET then
    if fr.contentView.length = 1 ∧ fr.contentView.headD 0 ≠ 0 then
      -- `this.settings = this.settingsQueue.pop()` : assign the queue's
      -- last element (or `undefined` on an empty queue) and drop it.
      some ({ st with settings := st.settingsQueue.getLast?,
                      settingsQueue := st.settingsQueue.dropLast }, .basicSet)
    else do
      let ack ← getUint8 fr.contentView 0
      let state ← getUint8 fr.contentView 1
      let vo_set ← getUint16le fr.contentView 2
      let io_set ← getUint16le fr.contentView 4
      let ovp_set ← getUint16le fr.contentView 6
      let ocp_set ← getUint16le fr.contentView 8
      some (receiveBasicSettings st ack
        { state := state, vo_set := (vo_set : ℚ) / 1000,
          io_set := (io_set : ℚ) / 1000, ovp_set := (ovp_set : ℚ) / 1000,
          ocp_set := (ocp_set : ℚ) / 1000 }, .basicSet)
  else if fr.functionType = SYSTEM_INFO then do
    let otp ← getUint16le fr.contentView 0
    let opp ← getUint16le fr.contentView 2
    let backlight ← getUint8 fr.contentView 4
    let volume ← getUint8 fr.contentView 5
    let reverse_protection ← getUint8 fr.contentView 6
    let audio_out ← getUint8 fr.contentView 7
    some (receiveSystemInfo st
      { otp := otp, opp := (opp : ℚ) / 10, backlight := backlight,
        volume := volume, reverse_protection := reverse_protection,
        audio_out := audio_out }, .systemInfo)
  else if fr.functionType = DEVICE_INFO then do
    -- The branch only logs, but its `DataView` reads can still throw.
    let _hardware ← getUint16le fr.contentView 16
    let _firmware ← getUint16le fr.contentView 18
    let _boot ← getUint16le fr.contentView 20
    let _run ← getUint16le fr.contentView 22
    let _year ← getUint16le fr.contentView 36
    let _month ← getUint8 fr.contentView 38
    let _day ← getUint8 fr.contentView 39
    some (st, .deviceInfo)
  else
    some (st, .unhandled fr.functionType)

/-- `inputReportHandler(event)`: parse the report; on a checksum mismatch
log the expected and received values and return without touching any
state; otherwise dispatch on the function type. -/
def inputReportHandler (st : DeviceState) (data : List Nat) :
    Option (DeviceState × HandlerEvent) :=
  match parseReport data with
  | none => none
  | some fr =>
    if fr.computedChecksum ≠ fr.checksum then
      some (st, .checksumFailed fr.computedChecksum fr.checksum)
    else
      dispatchFrame st fr

/-! ## Settings writes: `setBasicOutput` / `setBasicSettings` (lines 134–167) -/

/-- The argument of `setBasicOutput`: `{ state, vo_set, io_set }`, each
field possibly `undefined`. -/
structure OutputPatch where
  state : Option Nat := none
  vo_set : Option ℚ := none
  io_set : Option ℚ := none
deriving DecidableEq, Repr

/-- The argument of `setBasicSettings`: `{ ovp_set, ocp_set }`, each field
possibly `undefined`. -/
structure ProtectionPatch where
  ovp_set : Option ℚ := none
  ocp_set : Option ℚ := none
deriving DecidableEq, Repr

/-- `Object.assign({}, this.settings, definedEntries)` in
`setBasicOutput`: overwrite exactly the defined fields of the patch. -/
def mergeOutput (s : BasicSettings) (p : OutputPatch) : BasicSettings :=
  { s with state := p.state.getD s.state,
           vo_set := p.vo_set.getD s.vo_set,
           io_set := p.io_set.getD s.io_set }

/-- `Object.assign({}, this.settings, definedEntries)` in
`setBasicSettings`: overwrite exactly the defined fields of the patch. -/
def mergeProtection (s : BasicSettings) (p : ProtectionPatch) : BasicSettings :=
  { s with ovp_set := p.ovp_set.getD s.ovp_set,
           ocp_set := p.ocp_set.getD s.ocp_set }

/-- JavaScript number-to-integer truncation (toward zero) of a rational
(`Int.tdiv` truncates toward zero, as JavaScript's `ToIntegerOrInfinity`). -/
def jsTrunc (q : ℚ) : Int :=
  Int.tdiv q.num (q.den : Int)

/-- `DataView.setUint16`'s `ToUint16` conversion: truncate toward zero and
reduce modulo 2^16 (mathematical modulus, always non-negative). -/
def toUint16 (q : ℚ) : Nat :=
  ((jsTrunc q).emod 65536).toNat

/-- The 10-byte payload built by `setBasicOutput`: marker `0x20`, the
state byte, `vo_set * 1000` and `io_set * 1000` as little-endian 16-bit
words, the protection fields left at zero. -/
def outputBytes (b : BasicSettings) : List Nat :=
  [MAGIC_OUTPUT, b.state % 256] ++
    u16le (toUint16 (b.vo_set * 1000)) ++
    u16le (toUint16 (b.io_set * 1000)) ++ [0, 0, 0, 0]

/-- The 10-byte payload built by `setBasicSettings`: marker `0x40`, bytes
1–5 left at zero, `ovp_set * 1000` and `ocp_set * 1000` as little-endian
16-bit words at offsets 6 and 8. -/
def settingBytes (b : BasicSettings) : List Nat :=
  [MAGIC_SETTING, 0, 0, 0, 0, 0] ++
    u16le (toUint16 (b.ovp_set * 1000)) ++
    u16le (toUint16 (b.ocp_set * 1000))

/-- `setBasicOutput({state, vo_set, io_set})`: throw
`Error('Settings not loaded')` when `this.settings` is `undefined`;
otherwise merge the defined fields onto the confirmed settings, push the
candidate onto `this.settingsQueue`, and transmit the encoded report
(function `BASIC_SET`, sequence `0`).  The returned pair is the new state
and the transmitted report bytes. -/
def setBasicOutput (st : DeviceState) (p : OutputPatch) :
    Except String (DeviceState × List Nat) :=
  match st.settings with
  | none => .error "Settings not loaded"
  | some s =>
    let basicSet := mergeOutput s p
    let st1 := { st with settingsQueue := st.settingsQueue ++ [basicSet] }
    .ok (st1, sendReport BASIC_SET (some (outputBytes basicSet)) (some 0))

/-- `setBasicSettings({ovp_set, ocp_set})`: throw
`Error('Settings not loaded')` when `this.settings` is `undefined`;
otherwise merge the defined fields onto the confirmed settings, push the
candidate onto `this.settingsQueue`, and transmit the encoded report
(function `BASIC_SET`, sequence `0`). -/
def setBasicSettings (st : DeviceState) (p : ProtectionPatch) :
    Except String (DeviceState × List Nat) :=
  match st.settings with
  | none => .error "Settings not loaded"
  | some s =>
    let basicSet := mergeProtection s p
    let st1 := { st with settingsQueue := st.settingsQueue ++ [basicSet] }
    .ok (st1, sendReport BASIC_SET (some (settingBytes basicSet)) (some 0))

/-- The raw little-endian 16-bit field at offset `i` of a payload view
(total function; the theorems about `dispatchFrame` use it only at
in-range offsets, where it agrees with `getUint16le`). -/
def readU16 (l : List Nat) (i : Nat) : Nat :=
  l.getD i 0 + 256 * l.getD (i + 1) 0

/-! ## Lemmas -/

lemma foldl_range_eq_iterate (g : Nat → Nat) (x : Nat) :
    ∀ n : Nat, (List.range n).foldl (fun c _ => g c) x = g^[n] x := by
  intro n
  induction n generalizing x with
  | zero => rfl
  | succ k ih =>
    rw [List.range_succ, List.foldl_append, List.foldl_cons, List.foldl_nil, ih x]
    exact (Function.iterate_succ_apply' g k x).symm

lemma crcRound_eq_modbusStep (c : Nat) : crcRound c = modbusStep c := by
  unfold crcRound modbusStep
  rcases Nat.even_or_odd c with h | h
  · have h1 : c % 2 = 0 := Nat.even_iff.mp h
    have h2 : c &&& 1 = 0 := by rw [Nat.and_one_is_mod, h1]
    simp [h1, h2, Nat.shiftRight_one]
  · have h1 : c % 2 = 1 := Nat.odd_iff.mp h
    have h2 : c &&& 1 = 1 := by rw [Nat.and_one_is_mod, h1]
    simp [h1, h2, Nat.shiftRight_one]

lemma crcByte_eq_modbusByte (c b : Nat) : crcByte c b = modbusByte c b := by
  unfold crcByte modbusByte
  rw [foldl_range_eq_iterate]
  have : crcRound = modbusStep := funext crcRound_eq_modbusStep
  rw [this]

set_option maxRecDepth 8192 in
/-- Claim C4: `crc16` is a deterministic pure function implementing the
CRC-16/MODBUS algorithm (initial value `0xFFFF`, XOR each byte into the
accumulator, eight shift rounds with polynomial `0xA001`): it coincides
with the reference definition on every byte sequence, and it produces the
standard CRC-16/MODBUS check value `0x4B37` on the ASCII bytes of
`"123456789"`. -/
theorem crc16_eq_modbus_reference :
    (∀ buffer : List Nat, crc16 buffer = crc16_modbus buffer) ∧
      crc16 [0x31, 0x32, 0x33, 0x34, 0x35, 0x36, 0x37, 0x38, 0x39] = 0x4B37 := by
  constructor
  · intro buffer
    unfold crc16 crc16_modbus
    have : crcByte = modbusByte := funext fun c => funext fun b => crcByte_eq_modbusByte c b
    rw [this]
  · decide

/-- Claim C5: calling `setBasicOutput` or `setBasicSettings` before any
settings have ever been loaded (`this.settings` still `undefined`) throws
`Error('Settings not loaded')` synchronously: the error surfaces to the
caller, nothing is transmitted and no pending write is queued (the
operation produces no successor state). -/
theorem setBasic_before_load_fails (st : DeviceState) (p : OutputPatch)
    (q : ProtectionPatch) (h : st.settings = none) :
    setBasicOutput st p = .error "Settings not loaded" ∧
      setBasicSettings st q = .error "Settings not loaded" := by
  unfold setBasicOutput setBasicSettings
  rw [h]
  exact ⟨rfl, rfl⟩

/-- Witness for C5: on the initial state the two write operations fail
with the `Settings not loaded` error. -/
theorem setBasic_before_load_fails_witness :
    setBasicOutput {} {} = .error "Settings not loaded" ∧
      setBasicSettings {} {} = .error "Settings not loaded" :=
  setBasic_before_load_fails {} {} {} rfl

/-- Claim C6: a settings write never modifies the confirmed settings: on
a loaded baseline `s`, `setBasicOutput` (resp. `setBasicSettings`) builds
the candidate by merging the defined patch fields onto `s`, appends it to
the pending queue, transmits the encoded report, and leaves the
`settings` field exactly as it was. -/
theorem setBasic_preserves_confirmed (st : DeviceState) (s : BasicSettings)
    (p : OutputPatch) (q : ProtectionPatch) (h : st.settings = some s) :
    (setBasicOutput st p =
        .ok ({ st with settingsQueue := st.settingsQueue ++ [mergeOutput s p] },
          sendReport BASIC_SET (some (outputBytes (mergeOutput s p))) (some 0)) ∧
      ({ st with settingsQueue := st.settingsQueue ++ [mergeOutput s p] }
          : DeviceState).settings = st.settings) ∧
    (setBasicSettings st q =
        .ok ({ st with settingsQueue := st.settingsQueue ++ [mergeProtection s q] },
          sendReport BASIC_SET (some (settingBytes (mergeProtection s q))) (some 0)) ∧
      ({ st with settingsQueue := st.settingsQueue ++ [mergeProtection s q] }
          : DeviceState).settings = st.settings) := by
  unfold setBasicOutput setBasicSettings
  rw [h]
  exact ⟨⟨rfl, rfl⟩, ⟨rfl, rfl⟩⟩

/-- Witness for C6: on a concrete loaded state, both writes queue their
merged candidate and leave the confirmed settings untouched. -/
theorem setBasic_preserves_confirmed_witness :
    (setBasicOutput { settings := some ⟨0, 5, 1, 31, 6⟩ } { vo_set := some 12 } =
        .ok ({ settings := some ⟨0, 5, 1, 31, 6⟩, settingsQueue := [⟨0, 12, 1, 31, 6⟩] },
          sendReport BASIC_SET (some (outputBytes ⟨0, 12, 1, 31, 6⟩)) (some 0)) ∧
      (({ settings := some ⟨0, 5, 1, 31, 6⟩,
          settingsQueue := [⟨0, 12, 1, 31, 6⟩] } : DeviceState)).settings =
        some ⟨0, 5, 1, 31, 6⟩) ∧
    (setBasicSettings { settings := some ⟨0, 5, 1, 31, 6⟩ } { ocp_set := some 2 } =
        .ok ({ settings := some ⟨0, 5, 1, 31, 6⟩, settingsQueue := [⟨0, 5, 1, 31, 2⟩] },
          sendReport BASIC_SET (some (settingBytes ⟨0, 5, 1, 31, 2⟩)) (some 0)) ∧
      (({ settings := some ⟨0, 5, 1, 31, 6⟩,
          settingsQueue := [⟨0, 5, 1, 31, 2⟩] } : DeviceState)).settings =
        some ⟨0, 5, 1, 31, 6⟩) := by
  have h := setBasic_preserves_confirmed { settings := some ⟨0, 5, 1, 31, 6⟩ }
    ⟨0, 5, 1, 31, 6⟩ { vo_set := some 12 } { ocp_set := some 2 } rfl
  refine ⟨⟨?_, rfl⟩, ⟨?_, rfl⟩⟩
  · exact h.1.1
  · exact h.2.1

/-- Claim C3: on an inbound report whose recomputed CRC-16 differs from
the trailing little-endian checksum, `inputReportHandler` only logs the
expected and received values and returns: the payload is never
dispatched and the session state (`info`, `settings`, `system`,
`settingsQueue`) is returned unchanged. -/
theorem handler_checksum_mismatch_no_state_change (st : DeviceState)
    (data : List Nat) (fr : Frame) (hp : parseReport data = some fr)
    (hne : fr.computedChecksum ≠ fr.checksum) :
    inputReportHandler st data =
      some (st, .checksumFailed fr.computedChecksum fr.checksum) := by
  unfold inputReportHandler
  rw [hp]
  simp [hne]

/-- Witness for C3: a concrete corrupted frame (its checksum bytes are
zero) is rejected with the recomputed value `0xF31` and the received
value `0`, and the state passes through unchanged. -/
theorem handler_checksum_mismatch_witness :
    inputReportHandler {} [251, 48, 0, 0, 0, 0] =
      some (({} : DeviceState), .checksumFailed 3889 0) :=
  handler_checksum_mismatch_no_state_change {} [251, 48, 0, 0, 0, 0]
    ⟨251, 48, 0, [], 0, 3889⟩ (by decide) (by decide)

/-- Claim C10: a valid `BASIC_SET` frame whose payload is the single byte
`0x00` is not treated as an acknowledgement (`contentView.getUint8(0)` is
falsy), so the handler proceeds to parse a full settings record and reads
payload offsets 1–9, which lie outside the one-byte payload: the
`DataView` read throws (`none` in the embedding), so the handler is not
total on such frames. -/
theorem handler_zero_ack_not_total (st : DeviceState) (data : List Nat)
    (fr : Frame) (hp : parseReport data = some fr)
    (hck : fr.computedChecksum = fr.checksum)
    (hfn : fr.functionType = BASIC_SET) (hcv : fr.contentView = [0]) :
    inputReportHandler st data = none := by
  unfold inputReportHandler
  rw [hp]
  simp only [hck, ne_eq, not_true_eq_false, if_neg, ite_false, not_false_eq_true]
  unfold dispatchFrame
  rw [hfn, hcv]
  simp [BASIC_INFO, BASIC_SET, getUint8, getUint16le]

/-- Witness for C10: the concrete checksummed `BASIC_SET` frame with
payload `[0x00]` makes the handler throw. -/
theorem handler_zero_ack_not_total_witness :
    inputReportHandler {} [251, 53, 0, 1, 0, 207, 136] = none :=
  handler_zero_ack_not_total {} [251, 53, 0, 1, 0, 207, 136]
    ⟨251, 53, 0, [0], 35023, 35023⟩ (by decide) rfl rfl rfl

/-- Claim C1 as amended: after a baseline has been loaded, a valid
inbound `BASIC_SET` frame carrying a single-byte payload with any
nonzero value makes the confirmed settings become the most recently
queued pending candidate (the queue's last entry, which is removed) —
no sequence-number matching takes place, and a zero acknowledgement
byte is not treated as an acknowledgement at all. -/
theorem handler_nonzero_ack_pops_last (st : DeviceState) (data : List Nat)
    (fr : Frame) (b : Nat) (hp : parseReport data = some fr)
    (hck : fr.computedChecksum = fr.checksum)
    (hfn : fr.functionType = BASIC_SET) (hcv : fr.contentView = [b])
    (hb : b ≠ 0) :
    inputReportHandler st data =
      some ({ st with settings := st.settingsQueue.getLast?,
                      settingsQueue := st.settingsQueue.dropLast }, .basicSet) := by
  unfold inputReportHandler
  rw [hp]
  simp only [hck, ne_eq, not_true_eq_false, if_neg, ite_false, not_false_eq_true]
  unfold dispatchFrame
  rw [hfn, hcv]
  simp [BASIC_INFO, BASIC_SET, hb]

/-- Witness for the amended C1: the concrete nonzero acknowledgement `7`
pops the single pending candidate into the confirmed settings. -/
theorem handler_nonzero_ack_pops_last_witness :
    inputReportHandler
        { settings := some ⟨0, 5, 1, 31, 6⟩, settingsQueue := [⟨1, 12, 2, 31, 6⟩] }
        [251, 53, 0, 1, 7, 142, 74] =
      some ({ settings := some ⟨1, 12, 2, 31, 6⟩, settingsQueue := [] },
        .basicSet) := by
  rw [handler_nonzero_ack_pops_last
    { settings := some ⟨0, 5, 1, 31, 6⟩, settingsQueue := [⟨1, 12, 2, 31, 6⟩] }
    [251, 53, 0, 1, 7, 142, 74] ⟨251, 53, 0, [7], 19086, 19086⟩ 7
    (by decide) rfl rfl rfl (by decide)]
  decide

lemma getUint8_eq_getD (l : List Nat) (i : Nat) (h : i < l.length) :
    getUint8 l i = some (l.getD i 0) := by
  unfold getUint8
  rw [List.get?_eq_get h, List.getD_eq_get?, List.get?_eq_get h]
  rfl

lemma getUint16le_eq_readU16 (l : List Nat) (i : Nat) (h : i + 1 < l.length) :
    getUint16le l i = some (readU16 l i) := by
  have h0 : i < l.length := Nat.lt_of_succ_lt h
  unfold getUint16le readU16
  rw [List.get?_eq_get h0, List.get?_eq_get h,
    List.getD_eq_get?, List.get?_eq_get h0, List.getD_eq_get?, List.get?_eq_get h]
  rfl

/-- Claim C9: on every valid `BASIC_INFO` frame whose payload carries the
full 16-byte record, the handler decodes each raw little-endian 16-bit
voltage/current field by dividing by 1000 (volts/amps) and each
temperature field by dividing by 10 (degrees Celsius), and stores the
record in `this.info`. -/
theorem handler_basic_info_scaling (st : DeviceState) (data : List Nat)
    (fr : Frame) (cv : List Nat) (hp : parseReport data = some fr)
    (hck : fr.computedChecksum = fr.checksum)
    (hfn : fr.functionType = BASIC_INFO) (hcv : fr.contentView = cv)
    (hlen : 16 ≤ cv.length) :
    inputReportHandler st data =
      some (receiveBasicInfo st
        { vIn := (readU16 cv 0 : ℚ) / 1000,
          vOut := (readU16 cv 2 : ℚ) / 1000,
          iOut := (readU16 cv 4 : ℚ) / 1000,
          voMax := (readU16 cv 6 : ℚ) / 1000,
          temp1 := (readU16 cv 8 : ℚ) / 10,
          temp2 := (readU16 cv 10 : ℚ) / 10,
          dc5V := (readU16 cv 12 : ℚ) / 1000,
          outMode := cv.getD 14 0,
          workSt := cv.getD 15 0 }, .basicInfo) := by
  subst hcv
  unfold inputReportHandler
  rw [hp]
  simp only [hck, ne_eq, not_true_eq_false, if_neg, ite_false, not_false_eq_true]
  unfold dispatchFrame
  rw [hfn]
  simp [BASIC_INFO,
    getUint16le_eq_readU16 fr.contentView 0 (by omega),
    getUint16le_eq_readU16 fr.contentView 2 (by omega),
    getUint16le_eq_readU16 fr.contentView 4 (by omega),
    getUint16le_eq_readU16 fr.contentView 6 (by omega),
    getUint16le_eq_readU16 fr.contentView 8 (by omega),
    getUint16le_eq_readU16 fr.contentView 10 (by omega),
    getUint16le_eq_readU16 fr.contentView 12 (by omega),
    getUint8_eq_getD fr.contentView 14 (by omega),
    getUint8_eq_getD fr.contentView 15 (by omega)]

/-- Witness for C9: a concrete valid `BASIC_INFO` frame with raw fields
`vIn=1000, vOut=12000, iOut=500, voMax=30000, temp1=250, temp2=300,
dc5V=5000` decodes to `1 V, 12.000 V, 0.500 A, 30 V, 25 °C, 30 °C, 5 V`. -/
theorem handler_basic_info_scaling_witness :
    inputReportHandler {}
        [251, 48, 0, 16, 232, 3, 224, 46, 244, 1, 48, 117, 250, 0, 44, 1,
          136, 19, 1, 0, 144, 57] =
      some ({ info := some { vIn := 1, vOut := 12, iOut := 1/2, voMax := 30,
                             temp1 := 25, temp2 := 30, dc5V := 5,
                             outMode := 1, workSt := 0 } }, .basicInfo) := by
  rw [handler_basic_info_scaling {}
    [251, 48, 0, 16, 232, 3, 224, 46, 244, 1, 48, 117, 250, 0, 44, 1,
      136, 19, 1, 0, 144, 57]
    ⟨251, 48, 0, [232, 3, 224, 46, 244, 1, 48, 117, 250, 0, 44, 1, 136, 19, 1, 0],
      14736, 14736⟩
    [232, 3, 224, 46, 244, 1, 48, 117, 250, 0, 44, 1, 136, 19, 1, 0]
    (by decide) rfl rfl rfl (by decide)]
  have e0 : readU16 [232, 3, 224, 46, 244, 1, 48, 117, 250, 0, 44, 1, 136, 19, 1, 0] 0 = 1000 := by decide
  have e2 : readU16 [232, 3, 224, 46, 244, 1, 48, 117, 250, 0, 44, 1, 136, 19, 1, 0] 2 = 12000 := by decide
  have e4 : readU16 [232, 3, 224, 46, 244, 1, 48, 117, 250, 0, 44, 1, 136, 19, 1, 0] 4 = 500 := by decide
  have e6 : readU16 [232, 3, 224, 46, 244, 1, 48, 117, 250, 0, 44, 1, 136, 19, 1, 0] 6 = 30000 := by decide
  have e8 : readU16 [232, 3, 224, 46, 244, 1, 48, 117, 250, 0, 44, 1, 136, 19, 1, 0] 8 = 250 := by decide
  have e10 : readU16 [232, 3, 224, 46, 244, 1, 48, 117, 250, 0, 44, 1, 136, 19, 1, 0] 10 = 300 := by decide
  have e12 : readU16 [232, 3, 224, 46, 244, 1, 48, 117, 250, 0, 44, 1, 136, 19, 1, 0] 12 = 5000 := by decide
  have e14 : List.getD [232, 3, 224, 46, 244, 1, 48, 117, 250, 0, 44, 1, 136, 19, 1, 0] 14 0 = 1 := by decide
  have e15 : List.getD [232, 3, 224, 46, 244, 1, 48, 117, 250, 0, 44, 1, 136, 19, 1, 0] 15 0 = 0 := by decide
  rw [e0, e2, e4, e6, e8, e10, e12, e14, e15]
  norm_num [receiveBasicInfo]

lemma toUint16_natCast (n : ℕ) : toUint16 ((n : ℕ) : ℚ) = n % 65536 := by
  unfold toUint16 jsTrunc
  rw [Rat.num_natCast, Rat.den_natCast, Nat.cast_one, Int.tdiv_one]
  have h : ((n : ℕ) : Int).emod 65536 = ((n : ℕ) : Int) % 65536 := rfl
  rw [h]
  omega

/-- Counterexample to C7: the write operations never reject an
out-of-range setpoint; `DataView.setUint16` reduces the fixed-point value
modulo 2^16.  Concretely, `vo_set = 70` encodes to `70 * 1000 = 70000`,
which exceeds `2^16 - 1 = 65535`, yet `setBasicOutput` succeeds and
transmits the wrapped value `70000 mod 2^16 = 4464` (payload bytes
`112, 17`), where the claim requires rejection before any bytes are
sent. -/
theorem setBasicOutput_overflow_counterexample :
    setBasicOutput { settings := some ⟨0, 5, 1, 31, 6⟩ } { vo_set := some 70 } =
      .ok ({ settings := some ⟨0, 5, 1, 31, 6⟩, settingsQueue := [⟨0, 70, 1, 31, 6⟩] },
        sendReport BASIC_SET (some (outputBytes ⟨0, 70, 1, 31, 6⟩)) (some 0)) ∧
    ¬ ((70 : ℚ) * 1000 < 65536) ∧
    toUint16 ((70 : ℚ) * 1000) = 4464 ∧
    (outputBytes ⟨0, 70, 1, 31, 6⟩).get? 2 = some 112 ∧
    (outputBytes ⟨0, 70, 1, 31, 6⟩).get? 3 = some 17 := by
  have h70 : ((70 : ℚ) * 1000) = ((70000 : ℕ) : ℚ) := by norm_num
  have ht : toUint16 ((70 : ℚ) * 1000) = 4464 := by
    rw [h70, toUint16_natCast]
  have hb : (outputBytes ⟨0, 70, 1, 31, 6⟩).get? 2 =
      some (toUint16 ((70 : ℚ) * 1000) % 256) := rfl
  have hb3 : (outputBytes ⟨0, 70, 1, 31, 6⟩).get? 3 =
      some (toUint16 ((70 : ℚ) * 1000) / 256 % 256) := rfl
  refine ⟨rfl, by norm_num, ht, ?_, ?_⟩
  · rw [hb, ht]
  · rw [hb3, ht]

/-- Claim C7 as amended: an out-of-range setpoint is neither rejected nor
detected: `setBasicOutput` always succeeds on a loaded baseline, and the
16-bit field placed on the wire for `vo_set = v` is
`trunc(v * 1000) mod 2^16` — the value wraps modulo 2^16 instead of
being rejected before transmission. -/
theorem setBasicOutput_wraps_mod_2pow16 (st : DeviceState) (s : BasicSettings)
    (p : OutputPatch) (v : ℚ) (hset : st.settings = some s)
    (hv : p.vo_set = some v) :
    setBasicOutput st p =
      .ok ({ st with settingsQueue := st.settingsQueue ++ [mergeOutput s p] },
        sendReport BASIC_SET (some (outputBytes (mergeOutput s p))) (some 0)) ∧
    (outputBytes (mergeOutput s p)).get? 2 =
      some (((jsTrunc (v * 1000)).emod 65536).toNat % 256) ∧
    (outputBytes (mergeOutput s p)).get? 3 =
      some (((jsTrunc (v * 1000)).emod 65536).toNat / 256 % 256) := by
  have hvo : (mergeOutput s p).vo_set = v := by simp [mergeOutput, hv]
  have hb2 : (outputBytes (mergeOutput s p)).get? 2 =
      some (toUint16 ((mergeOutput s p).vo_set * 1000) % 256) := rfl
  have hb3 : (outputBytes (mergeOutput s p)).get? 3 =
      some (toUint16 ((mergeOutput s p).vo_set * 1000) / 256 % 256) := rfl
  refine ⟨?_, ?_, ?_⟩
  · unfold setBasicOutput
    rw [hset]
  · rw [hb2, hvo]
    rfl
  · rw [hb3, hvo]
    rfl

/-- Witness for the amended C7: writing the in-range setpoint
`vo_set = 3.3 V` transmits and places `3300` on the wire (payload bytes
`228, 12`). -/
theorem setBasicOutput_wraps_witness :
    setBasicOutput { settings := some ⟨0, 5, 1, 31, 6⟩ }
        { vo_set := some (33/10) } =
      .ok ({ settings := some ⟨0, 5, 1, 31, 6⟩,
             settingsQueue := [⟨0, 33/10, 1, 31, 6⟩] },
        sendReport BASIC_SET (some (outputBytes ⟨0, 33/10, 1, 31, 6⟩)) (some 0)) ∧
    (outputBytes ⟨0, 33/10, 1, 31, 6⟩).get? 2 = some 228 ∧
    (outputBytes ⟨0, 33/10, 1, 31, 6⟩).get? 3 = some 12 := by
  have h := setBasicOutput_wraps_mod_2pow16 { settings := some ⟨0, 5, 1, 31, 6⟩ }
    ⟨0, 5, 1, 31, 6⟩ { vo_set := some (33/10) } (33/10) rfl rfl
  have h33 : ((33/10 : ℚ) * 1000) = ((3300 : ℕ) : ℚ) := by norm_num
  have ht : ((jsTrunc ((33/10 : ℚ) * 1000)).emod 65536).toNat = 3300 := by
    have h2 := toUint16_natCast 3300
    unfold toUint16 at h2
    rw [h33]
    omega
  refine ⟨h.1, ?_, ?_⟩
  · show (outputBytes (mergeOutput ⟨0, 5, 1, 31, 6⟩
      { state := none, vo_set := some (33/10), io_set := none })).get? 2 = some 228
    rw [h.2.1, ht]
  · show (outputBytes (mergeOutput ⟨0, 5, 1, 31, 6⟩
      { state := none, vo_set := some (33/10), io_set := none })).get? 3 = some 12
    rw [h.2.2, ht]

lemma crcRound_lt {c : Nat} (h : c < 2 ^ 16) : crcRound c < 2 ^ 16 := by
  have h1 : c >>> 1 < 2 ^ 16 := by
    rw [Nat.shiftRight_one]
    exact lt_of_le_of_lt (Nat.div_le_self c 2) h
  show (if c &&& 0x0001 ≠ 0 then (c >>> 1) ^^^ 0xA001 else c >>> 1) < 2 ^ 16
  by_cases ho : c &&& 0x0001 ≠ 0
  · rw [if_pos ho]
    exact Nat.xor_lt_two_pow h1 (by norm_num)
  · rw [if_neg ho]
    exact h1

lemma crcByte_lt {c : Nat} (b : Nat) (h : c < 2 ^ 16) (hb : b < 2 ^ 16) :
    crcByte c b < 2 ^ 16 := by
  unfold crcByte
  rw [foldl_range_eq_iterate]
  have base : c ^^^ b < 2 ^ 16 := Nat.xor_lt_two_pow h hb
  have iter : ∀ (n x : Nat), x < 2 ^ 16 → crcRound^[n] x < 2 ^ 16 := by
    intro n
    induction n with
    | zero => intro x hx; simpa using hx
    | succ k ih =>
      intro x hx
      rw [Function.iterate_succ_apply]
      exact ih _ (crcRound_lt hx)
  exact iter 8 _ base

lemma crc16_lt (l : List Nat) (h : ∀ b ∈ l, b < 256) : crc16 l < 2 ^ 16 := by
  unfold crc16
  have main : ∀ (m : List Nat) (acc : Nat), (∀ b ∈ m, b < 256) → acc < 2 ^ 16 →
      m.foldl crcByte acc < 2 ^ 16 := by
    intro m
    induction m with
    | nil => intro acc _ ha; simpa using ha
    | cons x xs ih =>
      intro acc hb ha
      rw [List.foldl_cons]
      exact ih _ (fun b hbm => hb b (List.mem_cons_of_mem _ hbm))
        (crcByte_lt x ha (lt_trans (hb x (List.mem_cons_self _ _)) (by norm_num)))
  exact main l 0xFFFF h (by norm_num)

lemma sendReport_eq (fn : Nat) (c : List Nat) (s : Nat) (hf : fn < 256)
    (hs : s < 256) (hc : ∀ b ∈ c, b < 256) (hlen : c.length < 256) :
    sendReport fn (some c) (some s) =
      ([deviceAddr, fn, s, c.length] ++ c) ++
        u16le (crc16 ([deviceAddr, fn, s, c.length] ++ c)) := by
  have hmapc : c.map (fun b => b % 256) = c := by
    conv_rhs => rw [← List.map_id c]
    exact List.map_congr_left fun a ha => Nat.mod_eq_of_lt (hc a ha)
  have hmap : ([deviceAddr, fn] ++ [s] ++ [c.length] ++ c ++ [0, 0]).map (· % 256)
      = ([deviceAddr, fn, s, c.length] ++ c) ++ [0, 0] := by
    simp only [List.map_append, List.map_cons, List.map_nil, hmapc,
      Nat.mod_eq_of_lt hf, Nat.mod_eq_of_lt hs, Nat.mod_eq_of_lt hlen]
    simp [deviceAddr]
  unfold sendReport
  simp only [Option.getD_some, Option.map_some']
  rw [hmap]
  have hl : (([deviceAddr, fn, s, c.length] ++ c) ++ [0, 0]).length - 2 =
      ([deviceAddr, fn, s, c.length] ++ c).length := by
    simp
  rw [hl]
  unfold bufferSlice
  rw [List.take_left, List.drop_zero]

lemma u16_recombine {v : Nat} (h : v < 2 ^ 16) :
    v % 256 + 256 * (v / 256 % 256) = v := by
  have h6 : (2 : Nat) ^ 16 = 65536 := by norm_num
  rw [h6] at h
  omega

lemma sendReport_sequence_byte (fn : Nat) (c : List Nat) (s : Nat) (hf : fn < 256)
    (hs : s < 256) (hc : ∀ b ∈ c, b < 256) (hlen : c.length < 256) :
    (sendReport fn (some c) (some s)).get? 2 = some s := by
  rw [sendReport_eq fn c s hf hs hc hlen]
  rfl

lemma outputBytes_mem_lt (bs : BasicSettings) : ∀ b ∈ outputBytes bs, b < 256 := by
  intro b hb
  simp only [outputBytes, u16le, MAGIC_OUTPUT, List.append_assoc, List.cons_append,
    List.nil_append, List.mem_cons, List.not_mem_nil, or_false] at hb
  rcases hb with h | h | h | h | h | h | h | h | h | h <;> omega

lemma settingBytes_mem_lt (bs : BasicSettings) : ∀ b ∈ settingBytes bs, b < 256 := by
  intro b hb
  simp only [settingBytes, u16le, MAGIC_SETTING, List.append_assoc, List.cons_append,
    List.nil_append, List.mem_cons, List.not_mem_nil, or_false] at hb
  rcases hb with h | h | h | h | h | h | h | h | h | h <;> omega

/-- Counterexample to C1: the handler never compares the acknowledgement
byte with any pending sequence number (every write is transmitted with
sequence byte `0`, and the queue stores bare candidates).  The full
scenario: from the loaded baseline `⟨0, 5, 1, 31, 6⟩`, a write is issued
whose transmitted frame carries sequence byte `0`; then a valid
`BASIC_SET` frame arrives whose single-byte payload is `7 ≠ 0` — matching
no sequence number of any pending write — and it still pops the queue
and overwrites the confirmed settings with the candidate, whereas the
claim requires such an acknowledgement to be ignored. -/
theorem handler_ack_ignores_sequence_counterexample :
    setBasicOutput { settings := some ⟨0, 5, 1, 31, 6⟩ }
        { state := some 1, vo_set := some 12, io_set := some 2 } =
      .ok ({ settings := some ⟨0, 5, 1, 31, 6⟩, settingsQueue := [⟨1, 12, 2, 31, 6⟩] },
        sendReport BASIC_SET (some (outputBytes ⟨1, 12, 2, 31, 6⟩)) (some 0)) ∧
    (sendReport BASIC_SET (some (outputBytes ⟨1, 12, 2, 31, 6⟩)) (some 0)).get? 2 =
      some 0 ∧
    (7 : Nat) ≠ 0 ∧
    inputReportHandler
        { settings := some ⟨0, 5, 1, 31, 6⟩, settingsQueue := [⟨1, 12, 2, 31, 6⟩] }
        [251, 53, 0, 1, 7, 142, 74] =
      some ({ settings := some ⟨1, 12, 2, 31, 6⟩, settingsQueue := [] },
        .basicSet) ∧
    (some (⟨1, 12, 2, 31, 6⟩ : BasicSettings) ≠ some (⟨0, 5, 1, 31, 6⟩ : BasicSettings)) := by
  refine ⟨rfl, ?_, by decide, by decide, by decide⟩
  exact sendReport_sequence_byte _ _ _ (by decide) (by decide)
    (outputBytes_mem_lt _) (by simp [outputBytes, u16le])

/-- Counterexample to C8: no sequence counter exists; both write
operations always transmit sequence byte `0`.  Two successive writes
from a loaded state (far from any wrap of a byte counter) produce
reports whose sequence byte — offset 2 of the wire frame — is `0` both
times, where the claim requires distinct values. -/
theorem write_sequence_not_monotonic_counterexample :
    setBasicOutput { settings := some ⟨0, 5, 1, 31, 6⟩ } { vo_set := some 12 } =
      .ok ({ settings := some ⟨0, 5, 1, 31, 6⟩, settingsQueue := [⟨0, 12, 1, 31, 6⟩] },
        sendReport BASIC_SET (some (outputBytes ⟨0, 12, 1, 31, 6⟩)) (some 0)) ∧
    setBasicOutput
        { settings := some ⟨0, 5, 1, 31, 6⟩, settingsQueue := [⟨0, 12, 1, 31, 6⟩] }
        { io_set := some 2 } =
      .ok ({ settings := some ⟨0, 5, 1, 31, 6⟩,
             settingsQueue := [⟨0, 12, 1, 31, 6⟩, ⟨0, 5, 2, 31, 6⟩] },
        sendReport BASIC_SET (some (outputBytes ⟨0, 5, 2, 31, 6⟩)) (some 0)) ∧
    (sendReport BASIC_SET (some (outputBytes ⟨0, 12, 1, 31, 6⟩)) (some 0)).get? 2 =
      some 0 ∧
    (sendReport BASIC_SET (some (outputBytes ⟨0, 5, 2, 31, 6⟩)) (some 0)).get? 2 =
      some 0 := by
  refine ⟨rfl, rfl, ?_, ?_⟩
  · exact sendReport_sequence_byte _ _ _ (by decide) (by decide)
      (outputBytes_mem_lt _) (by simp [outputBytes, u16le])
  · exact sendReport_sequence_byte _ _ _ (by decide) (by decide)
      (outputBytes_mem_lt _) (by simp [outputBytes, u16le])

/-- Claim C8 as amended: every transmitted settings write carries the
constant sequence byte `0` (wire offset 2): no per-write counter is kept,
so successive writes carry equal — not distinct — sequence numbers. -/
theorem write_sequence_constant_zero (st : DeviceState) (p : OutputPatch)
    (q : ProtectionPatch) :
    (∀ st2 r, setBasicOutput st p = .ok (st2, r) → r.get? 2 = some 0) ∧
    (∀ st2 r, setBasicSettings st q = .ok (st2, r) → r.get? 2 = some 0) := by
  constructor
  · intro st2 r h
    unfold setBasicOutput at h
    cases hset : st.settings with
    | none => rw [hset] at h; exact absurd h (by simp)
    | some s =>
      rw [hset] at h
      simp only [Except.ok.injEq, Prod.mk.injEq] at h
      rw [← h.2]
      exact sendReport_sequence_byte _ _ _ (by decide) (by decide)
        (outputBytes_mem_lt _) (by simp [outputBytes, u16le])
  · intro st2 r h
    unfold setBasicSettings at h
    cases hset : st.settings with
    | none => rw [hset] at h; exact absurd h (by simp)
    | some s =>
      rw [hset] at h
      simp only [Except.ok.injEq, Prod.mk.injEq] at h
      rw [← h.2]
      exact sendReport_sequence_byte _ _ _ (by decide) (by decide)
        (settingBytes_mem_lt _) (by simp [settingBytes, u16le])

/-- Witness for the amended C8: the report produced by a concrete write
carries sequence byte `0` at wire offset 2. -/
theorem write_sequence_constant_zero_witness :
    (sendReport BASIC_SET (some (outputBytes ⟨0, 12, 1, 31, 6⟩)) (some 0)).get? 2 =
      some 0 :=
  (write_sequence_constant_zero { settings := some ⟨0, 5, 1, 31, 6⟩ }
      { vo_set := some 12 } {}).1
    { settings := some ⟨0, 5, 1, 31, 6⟩, settingsQueue := [⟨0, 12, 1, 31, 6⟩] }
    (sendReport BASIC_SET (some (outputBytes ⟨0, 12, 1, 31, 6⟩)) (some 0)) rfl

/-- Claim C2: round-trip.  For every function identifier, every content
byte sequence of length 0–250, and every sequence number, parsing the
frame produced by `sendReport` recovers the function identifier, the
content, and the sequence number exactly (and the received checksum
matches the recomputed one, so the decoded frame is accepted). -/
theorem frame_roundtrip (fn : Nat) (c : List Nat) (s : Nat) (hf : fn < 256)
    (hs : s < 256) (hc : ∀ b ∈ c, b < 256) (hlen : c.length ≤ 250) :
    parseReport (sendReport fn (some c) (some s)) =
      some ⟨deviceAddr, fn, s, c,
        crc16 ([deviceAddr, fn, s, c.length] ++ c),
        crc16 ([deviceAddr, fn, s, c.length] ++ c)⟩ := by
  rw [sendReport_eq fn c s hf hs hc (by omega)]
  have hprelen : ([deviceAddr, fn, s, c.length] ++ c).length = 4 + c.length := by
    simp
    omega
  have hprelt : ∀ b ∈ [deviceAddr, fn, s, c.length] ++ c, b < 256 := by
    intro b hb
    rcases List.mem_append.mp hb with h | h
    · simp only [deviceAddr, List.mem_cons, List.not_mem_nil, or_false] at h
      rcases h with h | h | h | h <;> omega
    · exact hc b h
  have hck := crc16_lt _ hprelt
  set ck := crc16 ([deviceAddr, fn, s, c.length] ++ c) with hckdef
  have g0 : getUint8 (([deviceAddr, fn, s, c.length] ++ c) ++ u16le ck) 0 =
      some deviceAddr := rfl
  have g1 : getUint8 (([deviceAddr, fn, s, c.length] ++ c) ++ u16le ck) 1 =
      some fn := rfl
  have g2 : getUint8 (([deviceAddr, fn, s, c.length] ++ c) ++ u16le ck) 2 =
      some s := rfl
  have g3 : getUint8 (([deviceAddr, fn, s, c.length] ++ c) ++ u16le ck) 3 =
      some c.length := rfl
  have hslice : bufferSlice (([deviceAddr, fn, s, c.length] ++ c) ++ u16le ck) 4
      (4 + c.length) = c := by
    unfold bufferSlice
    rw [List.take_left' hprelen, List.drop_left' (by simp : ([deviceAddr, fn, s, c.length] : List Nat).length = 4)]
  have hslice0 : bufferSlice (([deviceAddr, fn, s, c.length] ++ c) ++ u16le ck) 0
      (4 + c.length) = [deviceAddr, fn, s, c.length] ++ c := by
    unfold bufferSlice
    rw [List.take_left' hprelen, List.drop_zero]
  have hcksum : getUint16le (([deviceAddr, fn, s, c.length] ++ c) ++ u16le ck)
      (4 + c.length) = some ck := by
    unfold getUint16le u16le
    rw [List.get?_append_right (by omega : ([deviceAddr, fn, s, c.length] ++ c).length ≤ 4 + c.length),
      List.get?_append_right (by omega : ([deviceAddr, fn, s, c.length] ++ c).length ≤ 4 + c.length + 1),
      hprelen]
    have e0 : 4 + c.length - (4 + c.length) = 0 := by omega
    have e1 : 4 + c.length + 1 - (4 + c.length) = 1 := by omega
    rw [e0, e1]
    simp only [List.get?_cons_zero, List.get?_cons_succ]
    rw [u16_recombine hck]
  unfold parseReport
  rw [g0, g1, g2, g3]
  simp only [Option.bind_eq_bind, Option.some_bind]
  rw [hcksum]
  simp only [Option.bind_eq_bind, Option.some_bind]
  rw [hslice, hslice0]

/-- Witness for C2: the concrete frame for function `0x35`, content
`[1, 2, 3]` and sequence `7` decodes back to exactly those values with a
matching checksum. -/
theorem frame_roundtrip_witness :
    parseReport (sendReport 53 (some [1, 2, 3]) (some 7)) =
      some ⟨251, 53, 7, [1, 2, 3], 20465, 20465⟩ := by
  rw [frame_roundtrip 53 [1, 2, 3] 7 (by decide) (by decide) (by decide) (by decide)]
  decide

end DP100
